import Mathlib

/-!
# Verification of the smart-dashboard decision core

Shallow embedding, in Lean 4, of the Rule-Gate / Confidence / Decision /
Scanner / Price-Engine / Trade-Ledger core of the `smart-dashboard`
repository, together with theorems settling the frozen specification
claims.

Conventions of the embedding:
* Python floats are modelled as rationals (`ℚ`); NaN never enters the
  model (pandas `dropna` is modelled explicitly where the source uses it).
* `None` becomes `Option.none`; Python truthiness of a numeric optional
  (`if x:`) is `pyTruthy` below (`None` and `0` are falsy).
* Fallible code is modelled in `Except String` (an exception carries its
  message); `try/except` becomes matching on the `Except` value.
* Mutable per-session dictionaries (price slots, CSV files) become
  explicit state values threaded through the functions.
-/

namespace SmartDashboard

/-- Python truthiness of an optional number: `None` and `0` are falsy. -/
def pyTruthy : Option ℚ → Bool
  | none => false
  | some q => q ≠ 0

/-- Python truthiness of an optional string: `None` and `""` are falsy. -/
def pyTruthyStr : Option String → Bool
  | none => false
  | some s => s ≠ ""

/-! ## `logic/evaluate_setup.py` — the hard Rule Gate -/

/-- One indicator column of a pandas `DataFrame` as the Rule Gate reads
it: either absent (`none`, the `"X" in df.columns` test fails) or a
series of cells where `none` cells are the NaN entries removed by
`dropna()`. -/
abbrev IndicatorColumn := Option (List (Option ℚ))

/-- The slice of a price `DataFrame` that `_build_indicator_snapshot`
consumes: the four indicator columns plus the row count (`df.empty`
is `nrows = 0`). -/
structure PriceFrame where
  nrows : ℕ
  vwapCol : IndicatorColumn
  rsiCol : IndicatorColumn
  ema20Col : IndicatorColumn
  ema50Col : IndicatorColumn
  deriving Repr, DecidableEq

/-- `df["X"].dropna()` followed by `.iloc[-1]`, guarded by the
emptiness test of the source: the last non-NaN cell, if any. -/
def lastClean (col : List (Option ℚ)) : Option ℚ :=
  (col.filterMap id).getLast?

/-- The snapshot dictionary built by `_build_indicator_snapshot`. -/
structure Snapshot where
  price : ℚ
  vwap : Option ℚ
  rsi : Option ℚ
  ema_20 : Option ℚ
  ema_50 : Option ℚ
  deriving Repr, DecidableEq

/-- `_build_indicator_snapshot(df, price)`: missing indicators degrade
to `none`, never raise. -/
def build_indicator_snapshot (df : Option PriceFrame) (price : ℚ) : Snapshot :=
  let base : Snapshot :=
    { price := price, vwap := none, rsi := none, ema_20 := none, ema_50 := none }
  match df with
  | none => base
  | some f =>
      if f.nrows = 0 then base
      else
        { base with
          vwap := (f.vwapCol.bind lastClean)
          rsi := (f.rsiCol.bind lastClean)
          ema_20 := (f.ema20Col.bind lastClean)
          ema_50 := (f.ema50Col.bind lastClean) }

/-- Output contract of `evaluate_trade_setup` (the `snapshot` field is
`none` in the invalid-price branch, where the source returns `{}`). -/
structure EvalResult where
  allowed : Bool
  block_reason : Option String
  reasons : List String
  snapshot : Option Snapshot
  deriving Repr, DecidableEq

/-- `evaluate_trade_setup(symbol, df, price, mode, strategy)`: the hard
validation gate of `logic/evaluate_setup.py` (the `symbol` and `mode`
arguments are not used by the logic, and `**kwargs` is absorbed). -/
def evaluate_trade_setup (symbol : String) (df : Option PriceFrame)
    (price : Option ℚ) (mode : String := "INDEX") (strategy : String := "ORB") :
    EvalResult :=
  -- 1. basic price sanity (hard fail)
  match price with
  | none =>
      { allowed := false, block_reason := some "Invalid or missing live price",
        reasons := ["Invalid or missing live price"], snapshot := none }
  | some p =>
      if p ≤ 0 then
        { allowed := false, block_reason := some "Invalid or missing live price",
          reasons := ["Invalid or missing live price"], snapshot := none }
      else
        -- 2. build indicator snapshot (safe)
        let snap := build_indicator_snapshot df p
        -- 3. strategy-specific hard filters
        let reasons : List String :=
          if strategy = "ORB" then
            match snap.vwap with
            | some v =>
                if |p - v| / p > 1/100 then
                  ["Price too far from VWAP for clean ORB entry"]
                else []
            | none =>
                ["VWAP unavailable (ORB evaluated using price action only)"]
          else if strategy = "VWAP_MEAN_REVERSION" then
            match snap.vwap with
            | none => ["VWAP unavailable for mean reversion strategy"]
            | some v =>
                if |p - v| / p < 2/1000 then
                  ["Price too close to VWAP, no mean-reversion edge"]
                else []
          else []
        -- 4. RSI extremes (hard risk filter)
        let reasons := reasons ++
          (match snap.rsi with
           | some r =>
               if r > 80 then ["RSI extremely overbought"]
               else if r < 20 then ["RSI extremely oversold"]
               else []
           | none => [])
        -- 5. EMA structure filter (hard trend check)
        let reasons := reasons ++
          (match snap.ema_20, snap.ema_50 with
           | some e20, some e50 =>
               if e20 < e50 then ["Short-term trend below medium-term EMA"] else []
           | _, _ => [])
        -- 6. final hard decision
        let allowed := reasons.length = 0
        { allowed := allowed,
          block_reason := if allowed then none else reasons.head?,
          reasons := reasons,
          snapshot := some snap }

/-! ## `logic/trade_confidence.py` — the Confidence Scorer

`calculate_trade_confidence` is a straight-line sum of six numbered
scoring blocks; each block is embedded as its own definition, returning
its score contribution and its reason strings in source order, and the
main function is their ordered composition.  The unused `time_context`
parameter of the source is omitted. -/

/-- `confidence_label(score)` of `logic/trade_confidence.py`. -/
def confidence_label (score : ℤ) : String :=
  if score ≥ 75 then "HIGH"
  else if score ≥ 60 then "MODERATE"
  else if score ≥ 45 then "LOW"
  else "NO_TRADE"

/-- Block 1 of `calculate_trade_confidence`: VWAP alignment (max 25).
`if vwap:` is Python truthiness (`None` and `0` falsy). -/
def vwapAlignmentScore (vwap : Option ℚ) (price : ℚ) (direction : String) :
    ℤ × List String :=
  if pyTruthy vwap then
    let v := vwap.getD 0
    let distance := |price - v| / v
    let (s₁, r₁) : ℤ × List String :=
      if direction = "BUY" ∧ price > v then
        (15, ["Price above VWAP (bullish bias)"])
      else if direction = "SELL" ∧ price < v then
        (15, ["Price below VWAP (bearish bias)"])
      else
        (5, ["Price on weak side of VWAP"])
    let (s₂, r₂) : ℤ × List String :=
      if distance < 3/1000 then
        (10, ["Price close to VWAP (low slippage)"])
      else if distance < 1/100 then
        (5, ["Price moderately extended from VWAP"])
      else
        (0, ["Price far from VWAP (extension risk)"])
    (s₁ + s₂, r₁ ++ r₂)
  else
    (5, ["VWAP unavailable (confidence reduced)"])

/-- Block 2: trend structure, EMA 20 vs EMA 50 (max 20). -/
def trendStructureScore (ema_20 ema_50 : Option ℚ) : ℤ × List String :=
  if pyTruthy ema_20 ∧ pyTruthy ema_50 then
    if ema_20.getD 0 > ema_50.getD 0 then
      (20, ["Short-term trend above medium-term EMA"])
    else
      (5, ["Trend weak or against position"])
  else
    (8, ["EMA trend unavailable"])

/-- Block 3: RSI context (max 15). -/
def rsiContextScore (rsi : Option ℚ) : ℤ × List String :=
  if pyTruthy rsi then
    let r := rsi.getD 0
    if 45 ≤ r ∧ r ≤ 65 then (15, ["RSI in healthy momentum zone"])
    else if r > 70 then (5, ["RSI overbought (risk of pullback)"])
    else if r < 30 then (5, ["RSI oversold (risk of bounce)"])
    else (8, ["RSI neutral"])
  else
    (8, ["RSI unavailable"])

/-- Block 4: index PCR context (max 15); the source tests
`index_pcr is not None`, not truthiness. -/
def indexPcrScore (index_pcr : Option ℚ) (direction : String) : ℤ × List String :=
  match index_pcr with
  | some pcr =>
      if direction = "BUY" ∧ pcr > 1 then
        (15, ["Index PCR supports long bias"])
      else if direction = "SELL" ∧ pcr < 1 then
        (15, ["Index PCR supports short bias"])
      else
        (5, ["Index PCR weakly aligned"])
  | none => (5, ["Index PCR unavailable"])

/-- Block 5: options bias (max 10). -/
def optionsBiasScore (options_bias direction : String) : ℤ × List String :=
  if options_bias = "BULLISH" ∧ direction = "BUY" then
    (10, ["Options bias bullish"])
  else if options_bias = "BEARISH" ∧ direction = "SELL" then
    (10, ["Options bias bearish"])
  else
    (3, ["Options bias neutral or mixed"])

/-- The `risk_context` dictionary (`trades` and `pnl` keys are read with
`.get(key, 0)` defaults).  A `none` context covers both `None` and the
falsy empty dict of `if risk_context:`. -/
structure RiskContext where
  trades : Option ℤ
  pnl : Option ℚ
  deriving Repr, DecidableEq

/-- Block 6: risk-context penalty (penalty only, at most −10). -/
def riskContextPenalty (risk_context : Option RiskContext) : ℤ × List String :=
  match risk_context with
  | none => (0, [])
  | some rc =>
      let trades := rc.trades.getD 0
      let pnl := rc.pnl.getD 0
      let (s₁, r₁) : ℤ × List String :=
        if trades ≥ 5 then (-5, ["Multiple trades today (fatigue risk)"]) else (0, [])
      let (s₂, r₂) : ℤ × List String :=
        if pnl < 0 then (-5, ["Currently in drawdown"]) else (0, [])
      (s₁ + s₂, r₁ ++ r₂)

/-- `calculate_trade_confidence(...)` of `logic/trade_confidence.py`:
ordered sum of the six blocks, then `max(0, min(int(score), 100))`. -/
def calculate_trade_confidence (snapshot : Snapshot) (price : ℚ)
    (direction : String := "BUY") (index_pcr : Option ℚ := none)
    (options_bias : String := "NEUTRAL")
    (risk_context : Option RiskContext := none) : ℤ × List String :=
  let (s₁, r₁) := vwapAlignmentScore snapshot.vwap price direction
  let (s₂, r₂) := trendStructureScore snapshot.ema_20 snapshot.ema_50
  let (s₃, r₃) := rsiContextScore snapshot.rsi
  let (s₄, r₄) := indexPcrScore index_pcr direction
  let (s₅, r₅) := optionsBiasScore options_bias direction
  let (s₆, r₆) := riskContextPenalty risk_context
  let score := s₁ + s₂ + s₃ + s₄ + s₅ + s₆
  (max 0 (min score 100), r₁ ++ r₂ ++ r₃ ++ r₄ ++ r₅ ++ r₆)

/-! ## `logic/decision.py` — the Decision Combinator

`trade_decision` guards the resistance check with Python truthiness of
`price` and `resistance` (`if price and resistance and ...`), so a
`None` or `0` value skips the check.  `logic/decision.py` also carries a
second, dict-driven confidence engine (`calculate_trade_confidence` on a
context dict) which the opportunity scanner uses; it lives in the
`Decision` namespace here because its name collides with the scorer of
`trade_confidence.py`. -/

/-- `trade_decision(...)` of `logic/decision.py`: ordered hard-fail
checks, first match wins. -/
def trade_decision (open_now : Bool) (risk_status : Bool × String)
    (index_pcr : ℚ) (price resistance : Option ℚ)
    (options_bias : String := "NEUTRAL")
    (confidence_score : Option ℤ := none) : Bool × String :=
  if ¬ open_now then (false, "Market closed")
  else if ¬ risk_status.1 then (false, risk_status.2)
  else if index_pcr < 9/10 then (false, "Index PCR bearish")
  else if options_bias = "BEARISH" then (false, "Options bias bearish")
  else if pyTruthy price ∧ pyTruthy resistance ∧
          price.getD 0 ≥ resistance.getD 0 * (998/1000) then
    (false, "Near resistance")
  else if h : confidence_score.isSome then
    if confidence_score.get h < 45 then
      (false, "Low confidence – insufficient edge")
    else (true, "Trade allowed")
  else (true, "Trade allowed")

namespace Decision

/-- The context dict consumed by the Phase-2 confidence engine of
`logic/decision.py` (`context.get(...)`; `vwap_slope` defaults to 0). -/
structure Context where
  price : Option ℚ
  vwap : Option ℚ
  vwap_slope : ℚ
  orb_signal : Option String
  trend_alignment : Option String
  pcr : Option ℚ
  direction : Option String
  deriving Repr, DecidableEq

/-- `calculate_trade_confidence(context)` of `logic/decision.py`
(Phase-2 engine).  Its `reasons` are a Python dict keyed by factor
name, modelled as an insertion-ordered association list. -/
def calculate_trade_confidence (context : Context) :
    ℤ × List (String × String) :=
  -- 1. VWAP position
  let (s₁, r₁) : ℤ × List (String × String) :=
    if pyTruthy context.price ∧ pyTruthy context.vwap then
      if context.price.getD 0 > context.vwap.getD 0 then
        (15, [("VWAP Position", "Price above VWAP (bullish)")])
      else
        (5, [("VWAP Position", "Price below VWAP (weak)")])
    else (0, [])
  -- 2. VWAP slope
  let (s₂, r₂) : ℤ × List (String × String) :=
    if context.vwap_slope > 0 then
      (15, [("VWAP Slope", "VWAP rising (trend support)")])
    else if context.vwap_slope < 0 then
      (5, [("VWAP Slope", "VWAP falling (headwind)")])
    else
      (8, [("VWAP Slope", "VWAP flat (neutral)")])
  -- 3. ORB signal
  let (s₃, r₃) : ℤ × List (String × String) :=
    if context.orb_signal = some "CONFIRMED" then
      (20, [("ORB", "ORB breakout confirmed")])
    else
      (8, [("ORB", "No ORB confirmation")])
  -- 4. trend strength
  let (s₄, r₄) : ℤ × List (String × String) :=
    if context.trend_alignment = some "STRONG" then
      (20, [("Trend Strength", "Strong trend structure")])
    else if context.trend_alignment = some "MILD" then
      (10, [("Trend Strength", "Mild trend")])
    else
      (5, [("Trend Strength", "Range / weak structure")])
  -- 5. PCR confirmation
  let (s₅, r₅) : ℤ × List (String × String) :=
    if pyTruthy context.pcr then
      if context.direction = some "BUY" ∧ context.pcr.getD 0 > 1 then
        (10, [("PCR", "PCR supports long bias")])
      else if context.direction = some "SELL" ∧ context.pcr.getD 0 < 1 then
        (10, [("PCR", "PCR supports short bias")])
      else
        (5, [("PCR", "PCR neutral / weak")])
    else (0, [])
  let score := s₁ + s₂ + s₃ + s₄ + s₅
  (min score 100, r₁ ++ r₂ ++ r₃ ++ r₄ ++ r₅)

end Decision

/-! ## `logic/levels.py` -/

/-- Round half to even at integer precision (the tie-breaking rule of
Python's `round`). -/
def roundHalfEven (q : ℚ) : ℤ :=
  let f := ⌊q⌋
  let r := q - f
  if r < 1/2 then f
  else if r > 1/2 then f + 1
  else if f % 2 = 0 then f else f + 1

/-- Python's `round(x, 2)` on an exact value. -/
def pyRound2 (q : ℚ) : ℚ := (roundHalfEven (q * 100) : ℚ) / 100

/-- The dict returned by `calc_levels`. -/
structure Levels where
  support : ℚ
  resistance : ℚ
  orb_high : ℚ
  orb_low : ℚ
  deriving Repr, DecidableEq

/-- `calc_levels(price)` of `logic/levels.py`. -/
def calc_levels (price : ℚ) : Levels :=
  { support := pyRound2 (price * (994/1000))
    resistance := pyRound2 (price * (1006/1000))
    orb_high := pyRound2 (price * (1004/1000))
    orb_low := pyRound2 (price * (996/1000)) }

/-! ## `logic/market_opportunity_scanner.py` — the Watchlist Scanner

The scanner's external collaborators (`services.prices.live_price`,
`services.charts.get_intraday_data`, `services.options.get_pcr` — the
last one is not under `src/` at all) are supplied as oracle functions in
a `ScannerEnv`; a fetch that raises is an `Except.error` carrying the
exception's message.  The pandas frame is modelled column-wise
(`High`, `Low`, `VWAP` columns plus a row count for `df.empty`);
`iloc` accesses and the float division of the slope computation raise
inside the `Except` monad exactly where the Python can raise. -/

/-- Python's `str.upper()` (ASCII case mapping). -/
def pyUpper (s : String) : String := ⟨s.data.map Char.toUpper⟩

/-- Python's `str.strip()`: drop leading and trailing whitespace. -/
def pyStrip (s : String) : String :=
  ⟨((s.data.dropWhile Char.isWhitespace).reverse.dropWhile
      Char.isWhitespace).reverse⟩

/-- Left-to-right, non-overlapping replacement of a (non-empty) pattern
in a character list; the fuel is the list length, enough because every
step consumes at least one character. -/
def replaceList (pat rep : List Char) : ℕ → List Char → List Char
  | _, [] => []
  | 0, l => l
  | fuel + 1, c :: rest =>
      if pat.isPrefixOf (c :: rest) then
        rep ++ replaceList pat rep fuel ((c :: rest).drop pat.length)
      else
        c :: replaceList pat rep fuel rest

/-- Python's `str.replace(pat, rep)` for a non-empty pattern. -/
def pyReplace (s pat rep : String) : String :=
  ⟨replaceList pat.data rep.data s.data.length s.data⟩

/-- `normalize_symbol(symbol)`:
`symbol.upper().strip()` then `.replace(".NS", "")`. -/
def normalize_symbol (symbol : String) : String :=
  pyReplace (pyStrip (pyUpper symbol)) ".NS" ""

/-- The columns of the intraday frame that the scanner reads. -/
structure ScanFrame where
  nrows : ℕ
  vwap : List ℚ
  high : List ℚ
  low : List ℚ
  deriving Repr, DecidableEq

/-- External collaborators of the scanner, as pure oracles. -/
structure ScannerEnv where
  get_pcr : Option ℚ
  live_price : String → Except String (Option ℚ × Option String)
  get_intraday_data : String → Except String (Option ScanFrame × String)

/-- One `ScanResult` row appended to `results`. -/
structure ScanEntry where
  symbol : String
  status : String
  confidence : ℤ
  reasons : List String
  deriving Repr, DecidableEq

/-- `series.iloc[-1]`: raises `IndexError` on an empty series. -/
def ilocLast (l : List ℚ) : Except String ℚ :=
  match l.getLast? with
  | some x => .ok x
  | none => .error "IndexError: single positional indexer is out-of-bounds"

/-- `series.iloc[0]`: raises `IndexError` on an empty series. -/
def ilocFirst (l : List ℚ) : Except String ℚ :=
  match l.head? with
  | some x => .ok x
  | none => .error "IndexError: single positional indexer is out-of-bounds"

/-- Python float division: raises `ZeroDivisionError` on zero. -/
def pyDiv (x y : ℚ) : Except String ℚ :=
  if y = 0 then .error "ZeroDivisionError: float division by zero"
  else .ok (x / y)

/-- `series.tail(n)`: the last `n` entries. -/
def seriesTail (n : ℕ) (l : List ℚ) : List ℚ := l.drop (l.length - n)

/-- `sum(series.diff().dropna() > 0)`: how many consecutive increments
are positive. -/
def countPosDiff (l : List ℚ) : ℕ :=
  (l.zip l.tail).countP (fun p => p.2 - p.1 > 0)

/-- The body of the scanner's `try:` block for one (already normalized)
symbol; an `Except.error` is an exception escaping the body. -/
def scanBody (env : ScannerEnv) (index_pcr : Option ℚ) (symbol : String) :
    Except String ScanEntry := do
  -- live price (same as app)
  let (price?, _src) ← env.live_price symbol
  match price? with
  | none =>
      return { symbol := symbol, status := "AVOID", confidence := 0,
               reasons := ["Live price unavailable"] }
  | some price =>
  -- intraday data
  let (df?, _interval) ← env.get_intraday_data symbol
  match df? with
  | none =>
      return { symbol := symbol, status := "AVOID", confidence := 0,
               reasons := ["Intraday data unavailable"] }
  | some df =>
  if df.nrows = 0 then
    return { symbol := symbol, status := "AVOID", confidence := 0,
             reasons := ["Intraday data unavailable"] }
  else
  -- levels (same as app)
  let levels := calc_levels price
  -- VWAP + trend (same logic)
  let vwap ← ilocLast df.vwap
  let vwap_series := seriesTail 5 df.vwap
  let vwap_slope ←
    if vwap_series.length ≥ 2 then do
      let a ← ilocLast vwap_series
      let b ← ilocFirst vwap_series
      pyDiv (a - b) vwap
    else pure 0
  let highs := seriesTail 5 df.high
  let lows := seriesTail 5 df.low
  let higher_highs := countPosDiff highs
  let higher_lows := countPosDiff lows
  let trend_alignment :=
    if higher_highs ≥ 3 ∧ higher_lows ≥ 3 then "STRONG"
    else if higher_highs ≥ 2 then "MILD"
    else "NONE"
  -- ORB signal (`levels.get("orb_high", inf)`: the key is always present)
  let orb_signal := if price > levels.orb_high then "CONFIRMED" else "NONE"
  -- confidence (shared engine); `confidence_label` is computed by the
  -- source but not used in the emitted row
  let (confidence_score, reasons_map) := Decision.calculate_trade_confidence
    { price := some price, vwap := some vwap, vwap_slope := vwap_slope,
      orb_signal := some orb_signal, trend_alignment := some trend_alignment,
      pcr := index_pcr, direction := some "BUY" }
  -- final classification
  let status :=
    if confidence_score ≥ 70 then "BUY"
    else if confidence_score ≥ 45 then "WATCH"
    else "AVOID"
  return { symbol := symbol, status := status, confidence := confidence_score,
           reasons := reasons_map.map Prod.snd }

/-- One loop iteration of the scanner: the `try/except` around
`scanBody`, emitting the error-derived `AVOID` row on an exception. -/
def scanOne (env : ScannerEnv) (index_pcr : Option ℚ) (raw_symbol : String) :
    ScanEntry :=
  let symbol := normalize_symbol raw_symbol
  match scanBody env index_pcr symbol with
  | .ok entry => entry
  | .error e =>
      { symbol := symbol, status := "AVOID", confidence := 0,
        reasons := ["Scanner error: " ++ e] }

/-- `run_market_opportunity_scanner(symbols)`. -/
def run_market_opportunity_scanner (env : ScannerEnv) (symbols : List String) :
    List ScanEntry :=
  if symbols.isEmpty then []
  else
    let index_pcr := env.get_pcr
    symbols.map (scanOne env index_pcr)

/-! ## `services/price_engine.py` — the Price Cache

`get_live_price_fast` mutates a per-symbol session slot.  The slot is
an explicit state value here, and one call is a pure function of the
slot, the current time, and the outcomes of the two external fetches:
the primary HTTP request (`requests.get` on the shared service) and the
`live_price` fallback.  An `HttpResult.exn` covers every exception the
primary attempt can raise other than `requests.Timeout` — connection
errors, a `resp.json()` parse failure, and the `RuntimeError` the
source itself raises on a non-200 status: all are caught by the same
bare `except` and leave the slot untouched, so they share one
constructor. -/

/-- One per-symbol price slot (`st.session_state[f"_fast_price_{symbol}"]`). -/
structure PriceSlot where
  ts : Option ℚ
  poll_ts : ℚ
  price : Option ℚ
  src : Option String
  deriving Repr, DecidableEq

/-- The freshly initialized slot. -/
def PriceSlot.init : PriceSlot :=
  { ts := none, poll_ts := 0, price := none, src := none }

/-- Outcome of the primary shared-service request.  In `ok`, `price` is
`data.get("price")` and `timestamp` is `data.get("timestamp")`: `none`
when absent/falsy, `some (.error _)` when `datetime.fromisoformat`
raises on it, `some (.ok t)` when it parses to epoch seconds `t`. -/
inductive HttpResult where
  | ok (price : Option ℚ) (timestamp : Option (Except String ℚ))
  | non200 (code : ℕ)
  | timeout
  | exn (msg : String)
  deriving Repr

/-- The primary-attempt `try/except` of `get_live_price_fast`: on a 200
response the slot's `price` and `src` are assigned before the timestamp
is parsed, so a timestamp parse failure still keeps the new price; all
failure paths leave the slot unchanged. -/
def primaryAttempt (slot : PriceSlot) (r : HttpResult) : PriceSlot :=
  match r with
  | .ok price timestamp =>
      let slot := { slot with price := price, src := some "SHARED_LIVE" }
      match timestamp with
      | some (.ok t) => { slot with ts := some t }
      | some (.error _) => slot
      | none => slot
  | .non200 _ => slot
  | .timeout => slot
  | .exn _ => slot

/-- `get_live_price_fast(symbol, min_interval)` as a function of the
symbol's slot: returns the updated slot and the `(price, src)` pair.
The fallback `live_price` call is an oracle that either raises
(`Except.error`) or returns a `(price, src)` tuple; its `time.time()`
timestamp is the poll instant `now`. -/
def get_live_price_fast (slot : PriceSlot) (now : ℚ)
    (primary : HttpResult)
    (fallback : Except String (Option ℚ × Option String))
    (min_interval : ℚ := 3/2) : PriceSlot × (Option ℚ × Option String) :=
  if now - slot.poll_ts ≥ min_interval then
    -- attempt shared backend first
    let slot := primaryAttempt slot primary
    -- fallback to direct price
    let slot :=
      if slot.price = none then
        match fallback with
        | .ok (p, s) => { slot with price := p, src := s, ts := some now }
        | .error _ => slot
      else slot
    let slot := { slot with poll_ts := now }
    (slot, (slot.price, slot.src))
  else
    (slot, (slot.price, slot.src))

/-! ## `utils/trade_persistence.py` — the Trade Ledger

The day partition is a CSV file, modelled as a header (`cols`) plus
rows of cells aligned positionally with the header; an absent file is
`none`.  A cell is `null` (an empty CSV field / pandas NaN — Python
`None` is written out as an empty field), a string, or a number; the
numeric re-typing pandas applies to strings that consist only of digits
is below this abstraction. -/

/-- One CSV cell as pandas reads or writes it. -/
inductive CellValue where
  | null
  | str (s : String)
  | num (q : ℚ)
  deriving Repr, DecidableEq

/-- A day-partition CSV file: header plus rows. -/
structure Csv where
  cols : List String
  rows : List (List CellValue)
  deriving Repr, DecidableEq

/-- `list.index`-style first position of a column name (`none` both for
`col not in df.columns` and for a failed lookup). -/
def colIndex (cols : List String) (k : String) : Option ℕ :=
  match cols with
  | [] => none
  | c :: rest => if c = k then some 0 else (colIndex rest k).map (· + 1)

/-- `expected_cols` of `load_day_trades`. -/
def expected_cols : List String :=
  ["Trade ID", "Date", "Symbol", "Side", "Entry", "Exit", "Qty", "PnL",
   "Entry Time", "Exit Time", "Strategy", "Options Bias", "Market Status",
   "Notes", "Status"]

/-- `df.loc[mask, k] = v` for one masked row: writes the cell of column
`k`, and is a no-op when `k` is not a column (`if k in df.columns`). -/
def setCol (cols : List String) (r : List CellValue) (k : String)
    (v : CellValue) : List CellValue :=
  match colIndex cols k with
  | some i => r.set i v
  | none => r

/-- The `for k, v in updates.items()` loop applied to one masked row. -/
def applyUpdates (cols : List String) (updates : List (String × CellValue))
    (r : List CellValue) : List CellValue :=
  updates.foldl (fun row kv => setCol cols row kv.1 kv.2) r

/-- `update_trade_in_csv(trade_id, updates)` as a function of the day
file: missing file → no-op; missing `Trade ID` column → no-op; no row
whose `Trade ID` cell equals `trade_id` → no-op (`if not mask.any():
return`, before any write); otherwise every masked row receives the
updates and the file is rewritten. -/
def update_trade_in_csv (file : Option Csv) (trade_id : String)
    (updates : List (String × CellValue)) : Option Csv :=
  match file with
  | none => none
  | some df =>
    match colIndex df.cols "Trade ID" with
    | none => some df
    | some idIdx =>
      if ∃ r ∈ df.rows, r.get? idIdx = some (CellValue.str trade_id) then
        some { df with rows := df.rows.map (fun r =>
          if r.get? idIdx = some (CellValue.str trade_id) then
            applyUpdates df.cols updates r
          else r) }
      else some df

/-- The `updates` dict passed by the inline Exit action of
`dashboard/sections/paper_trade.py` when closing a trade. -/
def closeUpdates (exit_price pnl : ℚ) (exit_time : String) :
    List (String × CellValue) :=
  [("Exit", .num exit_price), ("PnL", .num pnl),
   ("Exit Time", .str exit_time), ("Status", .str "CLOSED")]

/-- `append_trade(row)`: `to_csv(mode="a", header=not exists)`.  The
appended line holds the row dict's values in the dict's own key order;
on a fresh file the header is the dict's keys. -/
def append_trade (file : Option Csv) (row : List (String × CellValue)) : Csv :=
  match file with
  | none => { cols := row.map Prod.fst, rows := [row.map Prod.snd] }
  | some df => { df with rows := df.rows ++ [row.map Prod.snd] }

/-- The cell transformation of writing with `to_csv` and reading back
with `read_csv`: `None` and empty strings are empty fields, which come
back as NaN (`null`); every other cell keeps its value. -/
def readCell (c : CellValue) : CellValue :=
  if c = .str "" then .null else c

/-- `load_day_trades()`: missing file → `[]`; lines with more fields
than the header are skipped (`on_bad_lines="skip"`), short lines are
NaN-padded; missing expected columns are back-filled with `None`, extra
columns dropped, and the record dicts are in `expected_cols` order. -/
def load_day_trades (file : Option Csv) : List (List (String × CellValue)) :=
  match file with
  | none => []
  | some df =>
      (df.rows.filter (fun r => r.length ≤ df.cols.length)).map (fun r =>
        expected_cols.map (fun c =>
          (c, match colIndex df.cols c with
              | some i => readCell ((r.get? i).getD .null)
              | none => .null)))

/-- A concrete scanner environment for Scenario E: prices resolve for
every symbol, but the intraday series fetch raises for `SYM3`. -/
def scannerEnvDemo : ScannerEnv where
  get_pcr := none
  live_price := fun _ => .ok (some 100, some "NSE")
  get_intraday_data := fun s =>
    if s = "SYM3" then .error "boom" else .ok (none, "5m")

/-! ## Helper lemmas for the Confidence Scorer -/

/-- The score returned by `calculate_trade_confidence` is the clamped
ordered sum of the six block contributions. -/
theorem calculate_trade_confidence_fst (snap : Snapshot) (price : ℚ)
    (direction : String) (index_pcr : Option ℚ) (options_bias : String)
    (risk_context : Option RiskContext) :
    (calculate_trade_confidence snap price direction index_pcr options_bias
        risk_context).1 =
      max 0 (min ((vwapAlignmentScore snap.vwap price direction).1 +
        (trendStructureScore snap.ema_20 snap.ema_50).1 +
        (rsiContextScore snap.rsi).1 +
        (indexPcrScore index_pcr direction).1 +
        (optionsBiasScore options_bias direction).1 +
        (riskContextPenalty risk_context).1) 100) := rfl

/-- Block 1 contributes between 5 and 25 points. -/
theorem vwapAlignmentScore_bounds (vwap : Option ℚ) (price : ℚ)
    (direction : String) :
    5 ≤ (vwapAlignmentScore vwap price direction).1 ∧
      (vwapAlignmentScore vwap price direction).1 ≤ 25 := by
  unfold vwapAlignmentScore
  split_ifs <;> norm_num
  split_ifs <;> norm_num

/-- Block 2 contributes between 5 and 20 points. -/
theorem trendStructureScore_bounds (ema_20 ema_50 : Option ℚ) :
    5 ≤ (trendStructureScore ema_20 ema_50).1 ∧
      (trendStructureScore ema_20 ema_50).1 ≤ 20 := by
  unfold trendStructureScore
  split_ifs <;> norm_num

/-- Block 3 contributes between 5 and 15 points. -/
theorem rsiContextScore_bounds (rsi : Option ℚ) :
    5 ≤ (rsiContextScore rsi).1 ∧ (rsiContextScore rsi).1 ≤ 15 := by
  unfold rsiContextScore
  split_ifs <;> norm_num
  split_ifs <;> norm_num

/-- Block 4 contributes between 5 and 15 points. -/
theorem indexPcrScore_bounds (index_pcr : Option ℚ) (direction : String) :
    5 ≤ (indexPcrScore index_pcr direction).1 ∧
      (indexPcrScore index_pcr direction).1 ≤ 15 := by
  unfold indexPcrScore
  cases index_pcr <;> simp <;> split_ifs <;> norm_num

/-- Block 5 contributes between 3 and 10 points. -/
theorem optionsBiasScore_bounds (options_bias direction : String) :
    3 ≤ (optionsBiasScore options_bias direction).1 ∧
      (optionsBiasScore options_bias direction).1 ≤ 10 := by
  unfold optionsBiasScore
  split_ifs <;> norm_num

/-- Block 6 subtracts at most 10 points and never adds. -/
theorem riskContextPenalty_bounds (risk_context : Option RiskContext) :
    -10 ≤ (riskContextPenalty risk_context).1 ∧
      (riskContextPenalty risk_context).1 ≤ 0 := by
  unfold riskContextPenalty
  cases risk_context <;> simp <;> split_ifs <;> norm_num

/-! ## Claim theorems -/

/-- Claim C1 (code bug in `evaluate_trade_setup`): on the failing input
— strategy `ORB`, valid price, no indicator series at all — the code
returns `allowed = false` with the "VWAP unavailable" reason as the
`block_reason`, although its own comment says VWAP absence is not a
hard block and the spec requires `allowed = true` with the reason kept
informational.  The informational reason lands in the same `reasons`
list that `allowed = len(reasons) == 0` counts, so it blocks. -/
theorem c1_orb_missing_vwap_blocks_eval :
    evaluate_trade_setup "NIFTY" none (some 100) "INDEX" "ORB" =
      { allowed := false,
        block_reason :=
          some "VWAP unavailable (ORB evaluated using price action only)",
        reasons := ["VWAP unavailable (ORB evaluated using price action only)"],
        snapshot := some { price := 100, vwap := none, rsi := none,
                           ema_20 := none, ema_50 := none } } := rfl

/-- Claim C2: for every input the Confidence Scorer's score lies in
[0, 100], and `confidence_label` maps the boundary scores exactly:
75 → HIGH, 74 → MODERATE, 60 → MODERATE, 59 → LOW, 45 → LOW,
44 → NO_TRADE. -/
theorem c2_confidence_range_and_labels :
    (∀ (snap : Snapshot) (price : ℚ) (direction : String)
       (index_pcr : Option ℚ) (options_bias : String)
       (risk_context : Option RiskContext),
       0 ≤ (calculate_trade_confidence snap price direction index_pcr
              options_bias risk_context).1 ∧
       (calculate_trade_confidence snap price direction index_pcr
          options_bias risk_context).1 ≤ 100) ∧
    confidence_label 75 = "HIGH" ∧ confidence_label 74 = "MODERATE" ∧
    confidence_label 60 = "MODERATE" ∧ confidence_label 59 = "LOW" ∧
    confidence_label 45 = "LOW" ∧ confidence_label 44 = "NO_TRADE" := by
  refine ⟨fun snap price direction index_pcr options_bias risk_context => ?_,
    rfl, rfl, rfl, rfl, rfl, rfl⟩
  rw [calculate_trade_confidence_fst]
  exact ⟨le_max_left _ _, max_le (by norm_num) (min_le_right _ _)⟩

/-- Claim C10: for every input the Confidence Scorer returns a score in
[13, 85] — the five scoring blocks contribute at least 5+5+5+5+3 = 23
and at most 25+20+15+15+10 = 85, the risk penalty subtracts at most 10,
so the clamps to 0 and to 100 never bite and the score is never 0 and
never 100. -/
theorem c10_confidence_score_tight_bounds (snap : Snapshot) (price : ℚ)
    (direction : String) (index_pcr : Option ℚ) (options_bias : String)
    (risk_context : Option RiskContext) :
    13 ≤ (calculate_trade_confidence snap price direction index_pcr
            options_bias risk_context).1 ∧
    (calculate_trade_confidence snap price direction index_pcr options_bias
        risk_context).1 ≤ 85 := by
  obtain ⟨h1a, h1b⟩ := vwapAlignmentScore_bounds snap.vwap price direction
  obtain ⟨h2a, h2b⟩ := trendStructureScore_bounds snap.ema_20 snap.ema_50
  obtain ⟨h3a, h3b⟩ := rsiContextScore_bounds snap.rsi
  obtain ⟨h4a, h4b⟩ := indexPcrScore_bounds index_pcr direction
  obtain ⟨h5a, h5b⟩ := optionsBiasScore_bounds options_bias direction
  obtain ⟨h6a, h6b⟩ := riskContextPenalty_bounds risk_context
  rw [calculate_trade_confidence_fst, min_eq_left (by omega),
    max_eq_right (by omega)]
  omega

/-- Claim C3: with the market open and risk status ok, an index PCR of
0.85 (< 0.9) hard-blocks the decision with the "Index PCR bearish"
reason, for every price, resistance, options bias and confidence score
— the ordered hard-fail checks short-circuit before the confidence
gate. -/
theorem c3_index_pcr_hard_block (s : String) (price resistance : Option ℚ)
    (options_bias : String) (confidence_score : Option ℤ) :
    trade_decision true (true, s) (85/100) price resistance options_bias
      confidence_score = (false, "Index PCR bearish") := by
  norm_num [trade_decision]

/-- Claim C8 counterexample: with every earlier check passing and
`resistance = 0`, the price 100 satisfies `price ≥ resistance * 0.998`,
yet `trade_decision` allows the trade — the `if price and resistance`
truthiness guard skips the resistance check when either value is 0 (or
missing), so the claim as stated fails at this input. -/
theorem c8_resistance_zero_counterexample :
    trade_decision true (true, "ok") 1 (some 100) (some 0) "NEUTRAL"
        (some 80) = (true, "Trade allowed") ∧
      (100 : ℚ) ≥ 0 * (998/1000) := by
  constructor
  · have hb : ("NEUTRAL" : String) ≠ "BEARISH" := by decide
    norm_num [trade_decision, pyTruthy, hb]
  · norm_num

/-- Claim C8 (amended): when the decision passes the market-open, risk,
index-PCR and options-bias checks and both price and resistance are
truthy (non-zero), `price ≥ resistance * 0.998` yields `allowed = false`
with the near-resistance reason (source string "Near resistance"). -/
theorem c8_near_resistance_block (s : String) (index_pcr : ℚ)
    (price resistance : ℚ) (options_bias : String)
    (confidence_score : Option ℤ) (hpcr : 9/10 ≤ index_pcr)
    (hbias : options_bias ≠ "BEARISH") (hp : price ≠ 0) (hr : resistance ≠ 0)
    (hnear : price ≥ resistance * (998/1000)) :
    trade_decision true (true, s) index_pcr (some price) (some resistance)
      options_bias confidence_score = (false, "Near resistance") := by
  simp [trade_decision, pyTruthy, not_lt.2 hpcr, hbias, hp, hr, hnear]

/-- Witness for the amended Claim C8 at price 100 against resistance
100 (within 0.2%). -/
theorem c8_near_resistance_block_witness :
    trade_decision true (true, "ok") 1 (some 100) (some 100) "NEUTRAL"
      (some 80) = (false, "Near resistance") :=
  c8_near_resistance_block "ok" 1 100 100 "NEUTRAL" (some 80)
    (by norm_num) (by decide) (by norm_num) (by norm_num) (by norm_num)

/-- Claim C4: the watchlist scan emits exactly one result per input
symbol, in input order (entry `i` is the processing of symbol `i`), and
a symbol whose processing raises yields an `AVOID` entry with an
error-derived reason while every other symbol is still processed
independently. -/
theorem c4_scanner_batch (env : ScannerEnv) (symbols : List String) :
    (run_market_opportunity_scanner env symbols).length = symbols.length ∧
    (∀ i, (run_market_opportunity_scanner env symbols).get? i =
      (symbols.get? i).map (scanOne env env.get_pcr)) ∧
    (∀ i sym e, symbols.get? i = some sym →
      scanBody env env.get_pcr (normalize_symbol sym) = .error e →
      (run_market_opportunity_scanner env symbols).get? i =
        some { symbol := normalize_symbol sym, status := "AVOID",
               confidence := 0, reasons := ["Scanner error: " ++ e] }) := by
  unfold run_market_opportunity_scanner
  by_cases h : symbols.isEmpty
  · rw [List.isEmpty_iff.1 h]
    refine ⟨by simp, by simp, ?_⟩
    intro i sym e hs
    simp at hs
  · simp only [h, if_false, Bool.false_eq_true]
    refine ⟨List.length_map _ _, fun i => List.get?_map _ _ _, ?_⟩
    intro i sym e hs hb
    rw [List.get?_map, hs]
    simp [scanOne, hb]

/-- Witness for Claim C4 (Scenario E): scanning five symbols where the
third one's series fetch raises yields five entries, the third marked
`AVOID` with the error-derived reason, the others processed. -/
theorem c4_scanner_batch_witness :
    (run_market_opportunity_scanner scannerEnvDemo
        ["SYM1", "SYM2", "SYM3", "SYM4", "SYM5"]).length = 5 ∧
    (run_market_opportunity_scanner scannerEnvDemo
        ["SYM1", "SYM2", "SYM3", "SYM4", "SYM5"]).get? 2 =
      some { symbol := "SYM3", status := "AVOID", confidence := 0,
             reasons := ["Scanner error: boom"] } := by
  have h := c4_scanner_batch scannerEnvDemo ["SYM1", "SYM2", "SYM3", "SYM4", "SYM5"]
  refine ⟨by rw [h.1]; rfl, ?_⟩
  have hn : normalize_symbol "SYM3" = "SYM3" := by decide
  have h3 := h.2.2 2 "SYM3" "boom" rfl (by rw [hn]; rfl)
  rw [h3, hn]
  rfl

/-- Claim C5: if a symbol's slot holds a last known-good price, a poll
whose primary fetch fails (timeout, non-200 status, or any other
exception) leaves the slot's price at that value — the fallback is not
even consulted, and the cached price is never overwritten with null. -/
theorem c5_failed_poll_keeps_price (slot : PriceSlot) (now p : ℚ)
    (primary : HttpResult)
    (fallback : Except String (Option ℚ × Option String)) (min_interval : ℚ)
    (hprice : slot.price = some p)
    (hfail : primary = .timeout ∨ (∃ c, primary = .non200 c) ∨
      ∃ m, primary = .exn m) :
    ((get_live_price_fast slot now primary fallback min_interval).1).price =
      some p := by
  have hpa : primaryAttempt slot primary = slot := by
    rcases hfail with h | ⟨c, h⟩ | ⟨m, h⟩ <;> subst h <;> rfl
  unfold get_live_price_fast
  split_ifs with h
  · simp [hpa, hprice]
  · exact hprice

/-- Witness for Claim C5: a slot caching price 100 polled past its
throttle window, with the primary timing out and the fallback raising,
still holds 100. -/
theorem c5_failed_poll_keeps_price_witness :
    ((get_live_price_fast ⟨none, 0, some 100, some "SHARED_LIVE"⟩ 10
        .timeout (.error "boom") (3/2)).1).price = some 100 :=
  c5_failed_poll_keeps_price ⟨none, 0, some 100, some "SHARED_LIVE"⟩ 10 100
    .timeout (.error "boom") (3/2) rfl (Or.inl rfl)

/-! ## Helper lemmas for the Trade Ledger -/

/-- A successful column lookup returns a position holding that name. -/
theorem colIndex_get? {cols : List String} {k : String} {i : ℕ}
    (h : colIndex cols k = some i) : cols.get? i = some k := by
  induction cols generalizing i with
  | nil => simp [colIndex] at h
  | cons c rest ih =>
    rw [colIndex] at h
    split_ifs at h with hc
    · have h0 : i = 0 := (Option.some.inj h).symm
      subst h0
      simp [hc]
    · rw [Option.map_eq_some'] at h
      obtain ⟨j, hj, rfl⟩ := h
      simpa using ih hj

/-- `setCol` preserves list length. -/
theorem setCol_length (cols : List String) (r : List CellValue) (k : String)
    (v : CellValue) : (setCol cols r k v).length = r.length := by
  unfold setCol
  cases colIndex cols k <;> simp

/-- `setCol` leaves every cell alone except the target column's. -/
theorem setCol_get?_preserve (cols : List String) (r : List CellValue)
    (k : String) (v : CellValue) {j : ℕ} (hne : colIndex cols k ≠ some j) :
    (setCol cols r k v).get? j = r.get? j := by
  unfold setCol
  cases h : colIndex cols k with
  | none => rfl
  | some i =>
    exact List.get?_set_ne v r (fun he => hne (he ▸ h))

/-- `applyUpdates` preserves list length. -/
theorem applyUpdates_length (cols : List String)
    (u : List (String × CellValue)) (r : List CellValue) :
    (applyUpdates cols u r).length = r.length := by
  induction u generalizing r with
  | nil => rfl
  | cons kv u ih =>
    show (applyUpdates cols u (setCol cols r kv.1 kv.2)).length = r.length
    rw [ih, setCol_length]

/-- `applyUpdates` leaves every cell alone whose column is not a key of
the updates. -/
theorem applyUpdates_get?_preserve (cols : List String)
    (u : List (String × CellValue)) (r : List CellValue) (j : ℕ)
    (h : ∀ kv ∈ u, colIndex cols kv.1 ≠ some j) :
    (applyUpdates cols u r).get? j = r.get? j := by
  induction u generalizing r with
  | nil => rfl
  | cons kv u ih =>
    show (applyUpdates cols u (setCol cols r kv.1 kv.2)).get? j = r.get? j
    rw [ih _ (fun kv' hkv' => h kv' (List.mem_cons_of_mem _ hkv')),
      setCol_get?_preserve _ _ _ _ (h kv (List.mem_cons_self _ _))]

/-- Applying the same update sequence to two rows of equal length that
agree outside the updated columns gives the same result. -/
theorem applyUpdates_congr (cols : List String)
    (u : List (String × CellValue)) (r s : List CellValue)
    (hlen : s.length = r.length)
    (hagree : ∀ j, (∀ kv ∈ u, colIndex cols kv.1 ≠ some j) →
      s.get? j = r.get? j) :
    applyUpdates cols u s = applyUpdates cols u r := by
  induction u generalizing r s with
  | nil =>
    exact List.ext_get? fun n => hagree n (by simp)
  | cons kv u ih =>
    show applyUpdates cols u (setCol cols s kv.1 kv.2) =
      applyUpdates cols u (setCol cols r kv.1 kv.2)
    apply ih
    · rw [setCol_length, setCol_length, hlen]
    · intro j hj
      unfold setCol
      cases h : colIndex cols kv.1 with
      | none =>
        refine hagree j fun kv' hkv' => ?_
        rcases List.mem_cons.1 hkv' with rfl | hmem
        · rw [h]; simp
        · exact hj kv' hmem
      | some i =>
        by_cases hij : i = j
        · subst hij
          by_cases hlt : i < r.length
          · have hlt' : i < s.length := by omega
            rw [List.get?_eq_getElem?, List.get?_eq_getElem?,
              List.getElem?_set_self hlt, List.getElem?_set_self hlt']
          · have h1 : (r.set i kv.2).get? i = none :=
              List.get?_eq_none.2 (by simp; omega)
            have h2 : (s.set i kv.2).get? i = none :=
              List.get?_eq_none.2 (by simp; omega)
            rw [h1, h2]
        · rw [List.get?_set_ne _ _ hij, List.get?_set_ne _ _ hij]
          refine hagree j fun kv' hkv' => ?_
          rcases List.mem_cons.1 hkv' with rfl | hmem
          · rw [h]
            exact fun he => hij (Option.some.inj he)
          · exact hj kv' hmem

/-- Applying the same update sequence twice is the same as applying it
once. -/
theorem applyUpdates_idem (cols : List String)
    (u : List (String × CellValue)) (r : List CellValue) :
    applyUpdates cols u (applyUpdates cols u r) = applyUpdates cols u r :=
  applyUpdates_congr cols u r (applyUpdates cols u r)
    (applyUpdates_length cols u r)
    (fun j hj => applyUpdates_get?_preserve cols u r j hj)

/-- If no update key is the `Trade ID` column, `applyUpdates` preserves
the `Trade ID` cell. -/
theorem applyUpdates_tradeId_cell (cols : List String) (r : List CellValue)
    {idIdx : ℕ} (hidx : colIndex cols "Trade ID" = some idIdx)
    (u : List (String × CellValue)) (hu : ∀ kv ∈ u, kv.1 ≠ "Trade ID") :
    (applyUpdates cols u r).get? idIdx = r.get? idIdx := by
  apply applyUpdates_get?_preserve
  intro kv hkv h
  have h1 := colIndex_get? h
  have h2 := colIndex_get? hidx
  rw [h1] at h2
  exact hu kv hkv (Option.some.inj h2)

/-- `update_trade_in_csv` is idempotent for any update dict that does
not touch the `Trade ID` column. -/
theorem update_trade_in_csv_idem (file : Option Csv) (trade_id : String)
    (u : List (String × CellValue)) (hu : ∀ kv ∈ u, kv.1 ≠ "Trade ID") :
    update_trade_in_csv (update_trade_in_csv file trade_id u) trade_id u =
      update_trade_in_csv file trade_id u := by
  cases file with
  | none => rfl
  | some df =>
    cases hidx : colIndex df.cols "Trade ID" with
    | none =>
      have h1 : update_trade_in_csv (some df) trade_id u = some df := by
        simp only [update_trade_in_csv, hidx]
      rw [h1, h1]
    | some idIdx =>
      by_cases hm : ∃ r ∈ df.rows, r.get? idIdx = some (CellValue.str trade_id)
      · have h1 : update_trade_in_csv (some df) trade_id u =
            some { df with rows := df.rows.map (fun r =>
              if r.get? idIdx = some (CellValue.str trade_id) then
                applyUpdates df.cols u r
              else r) } := by
          simp only [update_trade_in_csv, hidx, if_pos hm]
        rw [h1]
        have hm' : ∃ r ∈ df.rows.map (fun r =>
            if r.get? idIdx = some (CellValue.str trade_id) then
              applyUpdates df.cols u r
            else r), r.get? idIdx = some (CellValue.str trade_id) := by
          obtain ⟨r, hr, hcell⟩ := hm
          refine ⟨if r.get? idIdx = some (CellValue.str trade_id) then
            applyUpdates df.cols u r else r, List.mem_map_of_mem _ hr, ?_⟩
          rw [if_pos hcell, applyUpdates_tradeId_cell df.cols r hidx u hu]
          exact hcell
        simp only [update_trade_in_csv, hidx, if_pos hm']
        rw [List.map_map]
        congr 2
        apply List.map_congr_left
        intro r _
        by_cases hc : r.get? idIdx = some (CellValue.str trade_id)
        · simp only [Function.comp_apply, if_pos hc,
            applyUpdates_tradeId_cell df.cols r hidx u hu, hc, if_pos,
            applyUpdates_idem]
        · simp only [Function.comp_apply, if_neg hc]
      · have h1 : update_trade_in_csv (some df) trade_id u = some df := by
          simp only [update_trade_in_csv, hidx, if_neg hm]
        rw [h1, h1]

/-! ## Trade-Ledger claim theorems -/

/-- Claim C6: closing an already-closed trade again with the same
arguments is a no-op — re-applying the close updates (`Exit`, `PnL`,
`Exit Time`, `Status=CLOSED`, none of which is the `Trade ID` column)
to the ledger leaves every stored row exactly as after the first close,
so PnL is not double-counted. -/
theorem c6_close_idempotent (file : Option Csv) (trade_id : String)
    (exit_price pnl : ℚ) (exit_time : String) :
    update_trade_in_csv
        (update_trade_in_csv file trade_id
          (closeUpdates exit_price pnl exit_time))
        trade_id (closeUpdates exit_price pnl exit_time) =
      update_trade_in_csv file trade_id
        (closeUpdates exit_price pnl exit_time) := by
  apply update_trade_in_csv_idem
  intro kv hkv
  simp only [closeUpdates, List.mem_cons, List.mem_singleton] at hkv
  rcases hkv with rfl | rfl | rfl | rfl | h
  · exact (by decide : ("Exit" : String) ≠ "Trade ID")
  · exact (by decide : ("PnL" : String) ≠ "Trade ID")
  · exact (by decide : ("Exit Time" : String) ≠ "Trade ID")
  · exact (by decide : ("Status" : String) ≠ "Trade ID")
  · simp at h

/-- Claim C9: closing a trade id that is absent from the day partition
(or whose file is missing, or whose file lacks the `Trade ID` column)
is a silent no-op: nothing is written and every stored row is
unchanged. -/
theorem c9_close_missing_id_noop :
    (∀ (trade_id : String) (u : List (String × CellValue)),
      update_trade_in_csv none trade_id u = none) ∧
    (∀ (df : Csv) (trade_id : String) (u : List (String × CellValue)),
      (∀ idIdx, colIndex df.cols "Trade ID" = some idIdx →
        ∀ r ∈ df.rows, r.get? idIdx ≠ some (CellValue.str trade_id)) →
      update_trade_in_csv (some df) trade_id u = some df) := by
  refine ⟨fun _ _ => rfl, fun df trade_id u h => ?_⟩
  cases hidx : colIndex df.cols "Trade ID" with
  | none => simp only [update_trade_in_csv, hidx]
  | some idIdx =>
    simp only [update_trade_in_csv, hidx]
    rw [if_neg]
    rintro ⟨r, hr, hcell⟩
    exact h idIdx hidx r hr hcell

/-- Witness for Claim C9: closing trade id `T2` against a one-row
partition containing only `T1` changes nothing. -/
theorem c9_close_missing_id_noop_witness :
    update_trade_in_csv (some ⟨["Trade ID"], [[CellValue.str "T1"]]⟩) "T2"
        (closeUpdates 105 50 "15:30:00") =
      some ⟨["Trade ID"], [[CellValue.str "T1"]]⟩ := by
  apply c9_close_missing_id_noop.2
  intro idIdx hidx r hr
  have h0 : idIdx = 0 := by
    have : colIndex ["Trade ID"] "Trade ID" = some 0 := by decide
    rw [this] at hidx
    exact (Option.some.inj hidx).symm
  subst h0
  rcases List.mem_singleton.1 hr with rfl
  decide

/-- Claim C7: appending a full 15-column trade row to the day partition
(whether the file is fresh or already holds rows under the standard
header) and loading the partition back returns that record field for
field, except that cells stored as `None` or as an empty string come
back null-filled (NaN); `readCell` is the identity on every other
cell. -/
theorem c7_append_load_round_trip
    (c0 c1 c2 c3 c4 c5 c6 c7 c8 c9 c10 c11 c12 c13 c14 : CellValue)
    (df : Csv) (hcols : df.cols = expected_cols) :
    load_day_trades (some (append_trade none (expected_cols.zip
        [c0, c1, c2, c3, c4, c5, c6, c7, c8, c9, c10, c11, c12, c13, c14]))) =
      [expected_cols.zip
        ([c0, c1, c2, c3, c4, c5, c6, c7, c8, c9, c10, c11, c12, c13,
          c14].map readCell)] ∧
    load_day_trades (some (append_trade (some df) (expected_cols.zip
        [c0, c1, c2, c3, c4, c5, c6, c7, c8, c9, c10, c11, c12, c13, c14]))) =
      load_day_trades (some df) ++ [expected_cols.zip
        ([c0, c1, c2, c3, c4, c5, c6, c7, c8, c9, c10, c11, c12, c13,
          c14].map readCell)] ∧
    (∀ c, c ≠ CellValue.str "" → readCell c = c) := by
  refine ⟨rfl, ?_, fun c hc => if_neg hc⟩
  obtain ⟨cols, rows⟩ := df
  simp only [Csv.cols] at hcols
  subst hcols
  simp only [append_trade, load_day_trades, List.filter_append,
    List.map_append]
  rfl

/-- Witness for Claim C7: a concrete BUY row (with empty `Exit`,
`Exit Time` and `Notes` cells) appended to an empty standard partition
loads back null-filled in exactly those cells. -/
theorem c7_append_load_round_trip_witness :
    load_day_trades (some (append_trade (some ⟨expected_cols, []⟩)
        (expected_cols.zip
          [CellValue.str "T1", CellValue.str "2026-10-12",
           CellValue.str "NIFTY", CellValue.str "BUY", CellValue.num 100,
           CellValue.null, CellValue.num 10, CellValue.num 0,
           CellValue.str "09:30:00", CellValue.null, CellValue.str "ORB",
           CellValue.str "NEUTRAL", CellValue.str "OPEN", CellValue.str "",
           CellValue.str "OPEN"]))) =
      load_day_trades (some ⟨expected_cols, []⟩) ++ [expected_cols.zip
        ([CellValue.str "T1", CellValue.str "2026-10-12",
          CellValue.str "NIFTY", CellValue.str "BUY", CellValue.num 100,
          CellValue.null, CellValue.num 10, CellValue.num 0,
          CellValue.str "09:30:00", CellValue.null, CellValue.str "ORB",
          CellValue.str "NEUTRAL", CellValue.str "OPEN", CellValue.str "",
          CellValue.str "OPEN"].map readCell)] :=
  (c7_append_load_round_trip (.str "T1") (.str "2026-10-12") (.str "NIFTY")
    (.str "BUY") (.num 100) .null (.num 10) (.num 0) (.str "09:30:00") .null
    (.str "ORB") (.str "NEUTRAL") (.str "OPEN") (.str "") (.str "OPEN")
    ⟨expected_cols, []⟩ rfl).2.1

end SmartDashboard
